import Mathlib

/-!
Shallow embedding of the `logger` package (file `logde.go`): the
configuration type `LogOptions`, the level-filter functions, the rotation
writer constructors, the `InitLogger` builder, the config-file loaders, and
the leveled logging facade.  External effects (file rotation construction,
sentry client construction, config parsing, sprintf) are parameters of the
embedded functions; a Go `panic` is represented by `BuildResult.panicked`.
-/

namespace Logde

/-- zap severity scale: Debug = -1, Info = 0, Warn = 1, Error = 2,
DPanic = 3, Panic = 4, Fatal = 5 (zapcore.Level values). -/
def zapDebugLevel : Int := -1

def zapInfoLevel : Int := 0

def zapWarnLevel : Int := 1

def zapErrorLevel : Int := 2

def zapFatalLevel : Int := 5

/-- Constant `TimeDivision = "time"` from logde.go. -/
def TimeDivision : String := "time"

/-- Constant `SizeDivision = "size"` from logde.go. -/
def SizeDivision : String := "size"

def _defaultEncoding : String := "console"

def _defaultDivision : String := "size"

/-- `infoLevel(level)` from logde.go: admits `lvl >= level && lvl < WarnLevel`. -/
def infoLevel (level : Int) (lvl : Int) : Bool :=
  decide (lvl ≥ level) && decide (lvl < zapWarnLevel)

/-- `warnLevel()` from logde.go: admits `lvl >= WarnLevel`; it does not
consult the configured minimum level. -/
def warnLevel (lvl : Int) : Bool :=
  decide (lvl ≥ zapWarnLevel)

/-- `logLevel(level)` from logde.go: admits `lvl >= level`. -/
def logLevel (level : Int) (lvl : Int) : Bool :=
  decide (lvl ≥ level)

/-- `SentryLoggerConfig` as used in logde.go (fields read there: DSN, Debug,
AttachStacktrace, Environment, Tags; its defining file is not in src). -/
structure SentryLoggerConfig where
  DSN : String := ""
  Debug : Bool := false
  AttachStacktrace : Bool := false
  Environment : String := ""
  Tags : List (String × String) := []
deriving DecidableEq

/-- Modelled from the spec: `TimeUnit` (its defining file is not in src)
provides a file-name time-pattern suffix `Format()` and a rotation interval
`RotationGap()`; we carry both as abstract data. -/
structure TimeUnitT where
  format : String := ""
  rotationGap : Int := 0
deriving DecidableEq

/-- `LogOptions` from logde.go, field for field. -/
structure LogOptions where
  Encoding : String := ""
  InfoFilename : String := ""
  ErrorFilename : String := ""
  MaxSize : Int := 0
  MaxBackups : Int := 0
  MaxAge : Int := 0
  Compress : Bool := false
  Division : String := ""
  LevelSeparate : Bool := false
  TimeUnit : TimeUnitT := {}
  Stacktrace : Bool := false
  SentryConfig : SentryLoggerConfig := {}
  Level : Int := 0
  CloseDisplay : Int := 0
  caller : Bool := false
  skip : Int := 0
deriving DecidableEq

/-- `isOutput` from logde.go: whether an output file is set. -/
def LogOptions.isOutput (c : LogOptions) : Bool :=
  c.InfoFilename ≠ ""

/-- `CloseConsoleDisplay` from logde.go. -/
def LogOptions.CloseConsoleDisplay (c : LogOptions) : LogOptions :=
  { c with CloseDisplay := 1 }

/-- The zapcore.EncoderConfig built inside `InitLogger`. -/
structure EncoderConfig where
  timeKey : String
  levelKey : String
  nameKey : String
  callerKey : String
  messageKey : String
  stacktraceKey : String
  customEncodeTime : Bool
  shortCaller : Bool
deriving DecidableEq

/-- An encoder instance: which zapcore encoder was constructed, with its
configuration. -/
inductive Encoder where
  | console (cfg : EncoderConfig)
  | json (cfg : EncoderConfig)
deriving DecidableEq

/-- `_encoderNameToConstructor` from logde.go: a name-to-constructor map;
an unrecognized name yields no constructor (a nil function in Go). -/
def _encoderNameToConstructor (name : String) : Option (EncoderConfig → Encoder) :=
  if name = "console" then some Encoder.console
  else if name = "json" then some Encoder.json
  else none

/-- A write syncer in a writer-set: stdout, a lumberjack size-rotation
writer, a rotatelogs time-rotation writer, or `AddSync(nil)` (a wrapper
around a nil io.Writer, produced when a hook variable was never assigned). -/
inductive Writer where
  | stdout
  | nilWriter
  | size (filename : String) (maxSize maxBackups maxAge : Int) (compress : Bool)
  | time (pattern : String) (maxAge rotationGap : Int)
deriving DecidableEq

/-- `zapcore.AddSync` applied to a possibly-nil io.Writer hook. -/
def addSync : Option Writer → Writer
  | none => Writer.nilWriter
  | some w => w

/-- `sizeDivisionWriter` from logde.go: constructs a lumberjack.Logger with
`Filename: filename, MaxSize: c.MaxSize, MaxBackups: c.MaxBackups,
MaxAge: c.MaxSize, Compress: c.Compress`. -/
def LogOptions.sizeDivisionWriter (c : LogOptions) (filename : String) : Writer :=
  Writer.size filename c.MaxSize c.MaxBackups c.MaxSize c.Compress

/-- One day in nanoseconds: `24 * time.Hour` as a Go Duration. -/
def dayNS : Int := 24 * 3600 * 1000000000

/-- `timeDivisionWriter` from logde.go: calls `rotatelogs.New` on
`filename + c.TimeUnit.Format()` with max age `24h * c.MaxAge` and rotation
time `c.TimeUnit.RotationGap()`; on error it panics (here: `.error`).
`rotateFail` is the environment: whether `rotatelogs.New` fails on a given
pattern, and with what message. -/
def LogOptions.timeDivisionWriter (c : LogOptions)
    (rotateFail : String → Option String) (filename : String) :
    Except String Writer :=
  let pattern := filename ++ c.TimeUnit.format
  match rotateFail pattern with
  | some e => Except.error e
  | none => Except.ok (Writer.time pattern (dayNS * c.MaxAge) c.TimeUnit.rotationGap)

/-- The hook-construction portion of `InitLogger` (the `if c.isOutput()`
switch on `c.Division`): yields the info hook and warn hook, or the panic
message of a failed time-rotation construction. -/
def buildHooks (c : LogOptions) (rotateFail : String → Option String) :
    Except String (Option Writer × Option Writer) :=
  if c.isOutput then
    if c.Division = TimeDivision then
      match c.timeDivisionWriter rotateFail c.InfoFilename with
      | Except.error e => Except.error e
      | Except.ok ih =>
        if c.LevelSeparate then
          match c.timeDivisionWriter rotateFail c.ErrorFilename with
          | Except.error e => Except.error e
          | Except.ok wh => Except.ok (some ih, some wh)
        else
          Except.ok (some ih, none)
    else if c.Division = SizeDivision then
      if c.LevelSeparate then
        Except.ok (some (c.sizeDivisionWriter c.InfoFilename),
                   some (c.sizeDivisionWriter c.ErrorFilename))
      else
        Except.ok (some (c.sizeDivisionWriter c.InfoFilename), none)
    else
      Except.ok (none, none)
  else
    Except.ok (none, none)

/-- A level filter attached to a core, as constructed in `InitLogger`. -/
inductive Filter where
  | infoF (level : Int)
  | warnF
  | logF (level : Int)
deriving DecidableEq

/-- Whether a filter admits an entry of the given severity (the body of the
corresponding LevelEnablerFunc). -/
def Filter.admits : Filter → Int → Bool
  | Filter.infoF level, lvl => infoLevel level lvl
  | Filter.warnF, lvl => warnLevel lvl
  | Filter.logF level, lvl => logLevel level lvl

/-- One zapcore.Core: encoder, multiplexed writer-set, level filter. -/
structure Core where
  encoder : Encoder
  ws : List Writer
  filter : Filter
deriving DecidableEq

/-- The sentry core configuration built in `InitLogger` when a DSN is set:
`Level: zap.ErrorLevel, Tags: c.SentryConfig.Tags,
DisableStacktrace: !c.SentryConfig.AttachStacktrace`. -/
structure SentryCoreCfg where
  level : Int
  tags : List (String × String)
  disableStacktrace : Bool
deriving DecidableEq

/-- Which standard stream a message was printed to (`fmt.Printf` and
`fmt.Println` write to standard output). -/
inductive OutStream where
  | stdout
  | stderr
deriving DecidableEq

/-- The logger produced by `InitLogger`: its cores, the two writer-sets it
assembled, the optional sentry core, option flags, and what was printed
during construction. -/
structure LogModel where
  cores : List Core
  wsInfo : List Writer
  wsWarn : List Writer
  sentryCore : Option SentryCoreCfg
  development : Bool
  stacktrace : Bool
  withCaller : Bool
  callerSkip : Int
  printed : List (OutStream × String)
deriving DecidableEq

/-- Result of running a Go function that can panic. -/
inductive BuildResult (α : Type) where
  | panicked (msg : String)
  | ok (a : α)
deriving DecidableEq

/-- Whether the function returned normally (did not panic). -/
def BuildResult.isOk {α : Type} : BuildResult α → Bool
  | BuildResult.panicked _ => false
  | BuildResult.ok _ => true

/-- The cores of a build result (empty when the builder panicked). -/
def coresOf : BuildResult LogModel → List Core
  | BuildResult.panicked _ => []
  | BuildResult.ok m => m.cores

/-- The zapcore.EncoderConfig literal assembled in `InitLogger` from its
arguments. -/
def mkEncoderConfig (timeKey levelKey : String) (customEncodeTime shortCaller : Bool) :
    EncoderConfig :=
  { timeKey := timeKey, levelKey := levelKey, nameKey := "logger",
    callerKey := "file", messageKey := "msg", stacktraceKey := "stacktrace",
    customEncodeTime := customEncodeTime, shortCaller := shortCaller }

/-- `InitLogger` from logde.go.  `rotateFail` gives the outcome of each
`rotatelogs.New` call; `sentryErr` the outcome of `sentry.NewClient`
(`some e` = construction error `e`).  A nil encoder constructor (unknown
encoding) is invoked while building the cores, which panics. -/
def LogOptions.InitLogger (c : LogOptions) (timeKey levelKey : String)
    (customEncodeTime shortCaller : Bool)
    (rotateFail : String → Option String) (sentryErr : Option String) :
    BuildResult LogModel :=
  let encName := if c.Encoding = "" then _defaultEncoding else c.Encoding
  let encoderCtor := _encoderNameToConstructor encName
  let encoderConfig := mkEncoderConfig timeKey levelKey customEncodeTime shortCaller
  let wsConsole : List Writer := if c.CloseDisplay = 0 then [Writer.stdout] else []
  match buildHooks c rotateFail with
  | Except.error e => BuildResult.panicked e
  | Except.ok (infoHook, warnHook) =>
    let wsInfo := wsConsole ++ (if c.isOutput then [addSync infoHook] else [])
    let wsWarn := wsConsole ++ (if c.ErrorFilename ≠ "" then [addSync warnHook] else [])
    match encoderCtor with
    | none => BuildResult.panicked "invalid memory address or nil pointer dereference"
    | some ctor =>
      let cores : List Core :=
        if c.LevelSeparate then
          [⟨ctor encoderConfig, wsInfo, Filter.infoF c.Level⟩,
           ⟨ctor encoderConfig, wsWarn, Filter.warnF⟩]
        else
          [⟨ctor encoderConfig, wsInfo, Filter.logF c.Level⟩]
      let sentryPart : Option SentryCoreCfg × List (OutStream × String) :=
        if c.SentryConfig.DSN ≠ "" then
          (some { level := zapErrorLevel, tags := c.SentryConfig.Tags,
                  disableStacktrace := !c.SentryConfig.AttachStacktrace },
           match sentryErr with
           | some e => [(OutStream.stdout, e)]
           | none => [])
        else (none, [])
      BuildResult.ok
        { cores := cores, wsInfo := wsInfo, wsWarn := wsWarn,
          sentryCore := sentryPart.1, development := true,
          stacktrace := c.Stacktrace, withCaller := c.caller,
          callerSkip := c.skip, printed := sentryPart.2 }

/-- `NewFromToml` from logde.go: `toml.DecodeFile` error is passed to
`panic`; otherwise the decoded (possibly nil) config pointer is returned.
`decodeRes` is the decode outcome. -/
def NewFromToml (decodeRes : Except String (Option LogOptions)) :
    BuildResult (Option LogOptions) × List (OutStream × String) :=
  match decodeRes with
  | Except.error e => (BuildResult.panicked e, [])
  | Except.ok c => (BuildResult.ok c, [])

/-- `NewFromYaml` from logde.go: a read error is printed (to standard
output via `fmt.Printf`) and the function continues with empty contents;
then `yaml.Unmarshal(file, &c)` runs and its error, if any, is printed
likewise; whatever value unmarshalling left in `c` is returned either way.
`readRes` is the `ioutil.ReadFile` outcome; `unmarshal contents` gives the
final value of the config pointer together with the optional unmarshal
error — an unmarshal can fail and still leave a partially-filled non-nil
config (yaml.v2 type errors), or leave the pointer nil. -/
def NewFromYaml (readRes : Except String String)
    (unmarshal : String → Option LogOptions × Option String) :
    BuildResult (Option LogOptions) × List (OutStream × String) :=
  let readPart : String × List (OutStream × String) :=
    match readRes with
    | Except.error e => ("", [(OutStream.stdout, "yamlFile.Get err   #" ++ e ++ " ")])
    | Except.ok contents => (contents, [])
  let parsed := unmarshal readPart.1
  match parsed.2 with
  | some e =>
      (BuildResult.ok parsed.1, readPart.2 ++ [(OutStream.stdout, "error: " ++ e)])
  | none => (BuildResult.ok parsed.1, readPart.2)

/-- `NewFromJson` from logde.go: same shape as `NewFromYaml` with
`json.Unmarshal`, whose type errors likewise can leave a partially-filled
non-nil config alongside the returned error. -/
def NewFromJson (readRes : Except String String)
    (unmarshal : String → Option LogOptions × Option String) :
    BuildResult (Option LogOptions) × List (OutStream × String) :=
  let readPart : String × List (OutStream × String) :=
    match readRes with
    | Except.error e => ("", [(OutStream.stdout, "yamlFile.Get err   #" ++ e ++ " ")])
    | Except.ok contents => (contents, [])
  let parsed := unmarshal readPart.1
  match parsed.2 with
  | some e =>
      (BuildResult.ok parsed.1, readPart.2 ++ [(OutStream.stdout, "error: " ++ e)])
  | none => (BuildResult.ok parsed.1, readPart.2)

/-- A structured field attached to a log call (`zap.Field`). -/
structure Field where
  key : String
  value : String
deriving DecidableEq

/-- One emitted log entry: severity, message, structured fields. -/
structure Entry where
  level : Int
  msg : String
  fields : List Field
deriving DecidableEq

/-- The underlying `zap.Logger.<Level>` call: emits one entry at the given
severity with the given message and fields. -/
def zapEmit (lvl : Int) (msg : String) (fields : List Field) : Entry :=
  { level := lvl, msg := msg, fields := fields }

/-- `Log.Info` from logde.go. -/
def logInfo (msg : String) (args : List Field) : Entry := zapEmit zapInfoLevel msg args

/-- `Log.Error` from logde.go. -/
def logError (msg : String) (args : List Field) : Entry := zapEmit zapErrorLevel msg args

/-- `Log.Warn` from logde.go. -/
def logWarn (msg : String) (args : List Field) : Entry := zapEmit zapWarnLevel msg args

/-- `Log.Debug` from logde.go. -/
def logDebug (msg : String) (args : List Field) : Entry := zapEmit zapDebugLevel msg args

/-- `Log.Fatal` from logde.go. -/
def logFatal (msg : String) (args : List Field) : Entry := zapEmit zapFatalLevel msg args

/-- An sprintf argument (opaque: the embedding does not model fmt verbs). -/
structure Arg where
  repr : String
deriving DecidableEq

/-- `Log.Infof` from logde.go: `logMsg := fmt.Sprintf(format, args...);
log.L.Info(logMsg)` — `sprintf` is Go's fmt.Sprintf, a parameter here. -/
def logInfof (sprintf : String → List Arg → String) (format : String) (args : List Arg) : Entry :=
  let logMsg := sprintf format args
  zapEmit zapInfoLevel logMsg []

/-- `Log.Errorf` from logde.go. -/
def logErrorf (sprintf : String → List Arg → String) (format : String) (args : List Arg) : Entry :=
  let logMsg := sprintf format args
  zapEmit zapErrorLevel logMsg []

/-- `Log.Warnf` from logde.go. -/
def logWarnf (sprintf : String → List Arg → String) (format : String) (args : List Arg) : Entry :=
  let logMsg := sprintf format args
  zapEmit zapWarnLevel logMsg []

/-- `Log.Debugf` from logde.go. -/
def logDebugf (sprintf : String → List Arg → String) (format : String) (args : List Arg) : Entry :=
  let logMsg := sprintf format args
  zapEmit zapDebugLevel logMsg []

/-- `Log.Fatalf` from logde.go. -/
def logFatalf (sprintf : String → List Arg → String) (format : String) (args : List Arg) : Entry :=
  let logMsg := sprintf format args
  zapEmit zapFatalLevel logMsg []

/-- A level-separated configuration (all other fields default). -/
def c1cfg : LogOptions := { LevelSeparate := true }

/-- A level-separated configuration whose minimum level (2 = error) lies
above the warn threshold. -/
def c2cfg : LogOptions := { LevelSeparate := true, Level := 2 }

/-- A configuration with remote reporting enabled. -/
def c3cfg : LogOptions := { SentryConfig := { DSN := "http://key@host/1" } }

/-- A size-rotation configuration with distinct MaxSize and MaxAge values. -/
def c4cfg : LogOptions :=
  { MaxSize := 5, MaxBackups := 3, MaxAge := 7, Compress := true }

/-- A time-division configuration with an info file set. -/
def c5cfg : LogOptions := { InfoFilename := "app.log", Division := "time" }

/-- Console disabled, no info path, and an unrecognized encoding. -/
def c6cfg : LogOptions := { Encoding := "xml", CloseDisplay := 1 }

/-- Console disabled, no info path, default (empty) encoding. -/
def c6wcfg : LogOptions := { CloseDisplay := 1 }

/-- A default configuration (console enabled). -/
def c7cfg : LogOptions := {}

/-- A configuration whose console display has been closed. -/
def c7ccfg : LogOptions := { CloseDisplay := 1 }

/-- A configuration with an unrecognized non-empty encoding. -/
def c10cfg : LogOptions := { Encoding := "xml" }

/-- Inversion: a successful `InitLogger` run determines the writer-sets,
cores, sentry core and construction-time prints from the configuration and
the environment. -/
theorem initLogger_ok_elim (c : LogOptions) (tk lk : String) (cet sc : Bool)
    (rf : String → Option String) (se : Option String) (m : LogModel)
    (h : c.InitLogger tk lk cet sc rf se = BuildResult.ok m) :
    ∃ ctor infoHook warnHook,
      _encoderNameToConstructor (if c.Encoding = "" then _defaultEncoding else c.Encoding)
        = some ctor ∧
      buildHooks c rf = Except.ok (infoHook, warnHook) ∧
      m.wsInfo = (if c.CloseDisplay = 0 then [Writer.stdout] else [])
          ++ (if c.isOutput then [addSync infoHook] else []) ∧
      m.wsWarn = (if c.CloseDisplay = 0 then [Writer.stdout] else [])
          ++ (if c.ErrorFilename ≠ "" then [addSync warnHook] else []) ∧
      m.cores = (if c.LevelSeparate then
          [⟨ctor (mkEncoderConfig tk lk cet sc), m.wsInfo, Filter.infoF c.Level⟩,
           ⟨ctor (mkEncoderConfig tk lk cet sc), m.wsWarn, Filter.warnF⟩]
        else
          [⟨ctor (mkEncoderConfig tk lk cet sc), m.wsInfo, Filter.logF c.Level⟩]) ∧
      m.sentryCore = (if c.SentryConfig.DSN ≠ ""
          then some { level := zapErrorLevel, tags := c.SentryConfig.Tags,
                      disableStacktrace := !c.SentryConfig.AttachStacktrace }
          else none) ∧
      m.printed = (if c.SentryConfig.DSN ≠ ""
          then (match se with | some e => [(OutStream.stdout, e)] | none => [])
          else []) := by
  unfold LogOptions.InitLogger at h
  simp only [] at h
  rcases hb : buildHooks c rf with e | ⟨infoHook, warnHook⟩
  · rw [hb] at h
    exact absurd h (by simp)
  · rw [hb] at h
    simp only [] at h
    rcases hec : _encoderNameToConstructor
        (if c.Encoding = "" then _defaultEncoding else c.Encoding) with _ | ctor
    · rw [hec] at h
      exact absurd h (by simp)
    · rw [hec] at h
      simp only [] at h
      cases h
      refine ⟨ctor, infoHook, warnHook, ?_, ?_, rfl, rfl, rfl, ?_, ?_⟩
      · rfl
      · rfl
      · by_cases hd : c.SentryConfig.DSN = "" <;> simp [hd]
      · by_cases hd : c.SentryConfig.DSN = "" <;> simp [hd]

/-- A successful `timeDivisionWriter` construction yields a time-rotation
writer, never the stdout sink. -/
theorem timeDivisionWriter_ok_not_stdout (c : LogOptions) (rf : String → Option String)
    (fn : String) (w : Writer) (h : c.timeDivisionWriter rf fn = Except.ok w) :
    w ≠ Writer.stdout := by
  unfold LogOptions.timeDivisionWriter at h
  simp only [] at h
  rcases hr : rf (fn ++ c.TimeUnit.format) with _ | e
  · rw [hr] at h
    simp only [] at h
    injection h with h
    subst h
    simp
  · rw [hr] at h
    exact Except.noConfusion h

/-- Hooks produced by `buildHooks` are rotation writers (or absent), never
the stdout sink; hence the stdout sink can only enter a writer-set through
the console branch. -/
theorem buildHooks_hooks_not_stdout (c : LogOptions) (rf : String → Option String) :
    ∀ ih wh, buildHooks c rf = Except.ok (ih, wh) →
      addSync ih ≠ Writer.stdout ∧ addSync wh ≠ Writer.stdout := by
  unfold buildHooks
  repeat' split
  all_goals intro ih wh h
  all_goals try (exact Except.noConfusion h)
  all_goals simp only [Except.ok.injEq, Prod.mk.injEq] at h
  all_goals obtain ⟨h1, h2⟩ := h
  all_goals subst h1
  all_goals subst h2
  all_goals constructor
  all_goals simp only [addSync, LogOptions.sizeDivisionWriter]
  all_goals try simp
  all_goals first
    | (apply timeDivisionWriter_ok_not_stdout c rf c.InfoFilename; assumption)
    | (apply timeDivisionWriter_ok_not_stdout c rf c.ErrorFilename; assumption)

/-- A hook-construction failure propagates: InitLogger panics with the
rotation error. -/
theorem initLogger_panics_of_buildHooks_error (c : LogOptions) (tk lk : String)
    (cet sc : Bool) (rf : String → Option String) (se : Option String) (e : String)
    (h : buildHooks c rf = Except.error e) :
    c.InitLogger tk lk cet sc rf se = BuildResult.panicked e := by
  unfold LogOptions.InitLogger
  simp only []
  rw [h]

/-- C1: under levelSeparate=true, every successful build has exactly an
info core (filter `[Level, warn)` over the info writer-set) and a warn core
(filter `>= warn` over the warn writer-set); an entry at exactly the warn
threshold is admitted by the warn filter and rejected by the info filter,
so it is routed to the warn destination only and never duplicated. -/
theorem C1_warn_boundary_not_duplicated (c : LogOptions) (tk lk : String)
    (cet sc : Bool) (rf : String → Option String) (se : Option String) (m : LogModel)
    (hsep : c.LevelSeparate = true)
    (hok : c.InitLogger tk lk cet sc rf se = BuildResult.ok m) :
    ∃ enc, m.cores =
        [⟨enc, m.wsInfo, Filter.infoF c.Level⟩, ⟨enc, m.wsWarn, Filter.warnF⟩] ∧
      Filter.admits Filter.warnF zapWarnLevel = true ∧
      Filter.admits (Filter.infoF c.Level) zapWarnLevel = false := by
  obtain ⟨ctor, ih, wh, hec, hb, hwsi, hwsw, hcores, hsc, hp⟩ :=
    initLogger_ok_elim c tk lk cet sc rf se m hok
  refine ⟨ctor (mkEncoderConfig tk lk cet sc), ?_, by decide, ?_⟩
  · rw [hcores, if_pos hsep]
  · simp only [Filter.admits, infoLevel, zapWarnLevel]
    simp

/-- C1 witness: the level-separated default configuration. -/
theorem C1_witness :
    c1cfg.LevelSeparate = true ∧
    ∃ m, c1cfg.InitLogger "t" "l" false false (fun _ => none) none = BuildResult.ok m ∧
      ∃ enc, m.cores =
          [⟨enc, m.wsInfo, Filter.infoF c1cfg.Level⟩, ⟨enc, m.wsWarn, Filter.warnF⟩] ∧
        Filter.admits Filter.warnF zapWarnLevel = true ∧
        Filter.admits (Filter.infoF c1cfg.Level) zapWarnLevel = false :=
  ⟨rfl, _, rfl,
    C1_warn_boundary_not_duplicated c1cfg "t" "l" false false (fun _ => none) none _ rfl rfl⟩

/-- C2 counterexample: with levelSeparate=true and minimum level 2 (error),
a warn entry (severity 1, strictly below the minimum level) is admitted by
the warn core's filter, and that core has a destination (stdout), so the
claim that no filter admits a below-minimum entry is false. -/
theorem C2_counterexample :
    zapWarnLevel < c2cfg.Level ∧
    (coresOf (c2cfg.InitLogger "t" "l" false false (fun _ => none) none)).any
        (fun core => core.filter.admits zapWarnLevel && !core.ws.isEmpty) = true := by
  decide

/-- C2 as amended: an entry whose severity is strictly below both the
configured minimum level and the warn threshold is admitted by no filter of
any constructed core (and not by the sentry core's level either); for
severities at or above the warn threshold the warn filter ignores the
configured minimum level. -/
theorem C2_amended_below_min_and_warn (c : LogOptions) (tk lk : String)
    (cet sc : Bool) (rf : String → Option String) (se : Option String)
    (m : LogModel) (lvl : Int)
    (hmin : lvl < c.Level) (hwarn : lvl < zapWarnLevel)
    (hok : c.InitLogger tk lk cet sc rf se = BuildResult.ok m) :
    (∀ core ∈ m.cores, core.filter.admits lvl = false) ∧
    (∀ s, m.sentryCore = some s → decide (lvl ≥ s.level) = false) := by
  obtain ⟨ctor, ih, wh, hec, hb, hwsi, hwsw, hcores, hsc, hp⟩ :=
    initLogger_ok_elim c tk lk cet sc rf se m hok
  simp only [zapWarnLevel] at hwarn
  constructor
  · intro core hcore
    rw [hcores] at hcore
    by_cases hsep : c.LevelSeparate = true
    · rw [if_pos hsep] at hcore
      simp only [List.mem_cons, List.not_mem_nil, or_false] at hcore
      rcases hcore with rfl | rfl
      · simp only [Filter.admits, infoLevel, Bool.and_eq_false_iff]
        exact Or.inl (decide_eq_false (by omega))
      · simp only [Filter.admits, warnLevel, zapWarnLevel]
        exact decide_eq_false (by omega)
    · rw [if_neg hsep] at hcore
      simp only [List.mem_cons, List.not_mem_nil, or_false] at hcore
      subst hcore
      simp only [Filter.admits, logLevel]
      exact decide_eq_false (by omega)
  · intro s hs
    rw [hsc] at hs
    by_cases hd : c.SentryConfig.DSN ≠ ""
    · rw [if_pos hd] at hs
      injection hs with hs
      subst hs
      simp only [zapErrorLevel]
      exact decide_eq_false (by omega)
    · rw [if_neg hd] at hs
      exact Option.noConfusion hs

/-- C2 amended witness: config with minimum level 2, entry severity 0. -/
theorem C2_amended_witness :
    (0 : Int) < c2cfg.Level ∧ (0 : Int) < zapWarnLevel ∧
    ∃ m, c2cfg.InitLogger "t" "l" false false (fun _ => none) none = BuildResult.ok m ∧
      ((∀ core ∈ m.cores, core.filter.admits 0 = false) ∧
       (∀ s, m.sentryCore = some s → decide ((0 : Int) ≥ s.level) = false)) :=
  ⟨by decide, by decide, _, rfl,
    C2_amended_below_min_and_warn c2cfg "t" "l" false false (fun _ => none) none _ 0
      (by decide) (by decide) rfl⟩

/-- C4 (code bug): the size-rotation writer built for `c4cfg` carries
MaxSize 5, MaxBackups 3, compression on, but its age-based retention is 5
(a copy of MaxSize) instead of the configured MaxAge 7: the lumberjack
constructor line reads `MaxAge: c.MaxSize`. -/
theorem C4_sizeWriter_maxAge_is_maxSize :
    c4cfg.sizeDivisionWriter "app.log" = Writer.size "app.log" 5 3 5 true ∧
    c4cfg.MaxAge = 7 := by
  decide

/-- C5: when an output file is set and the division is time-based, a failed
rotation-writer construction (for the info file, or for the error file when
level-separated) makes InitLogger panic with that error; the error is never
swallowed and no logger is returned. -/
theorem C5_rotation_failure_panics (c : LogOptions) (tk lk : String)
    (cet sc : Bool) (rf : String → Option String) (se : Option String) (e : String)
    (hout : c.isOutput = true) (hdiv : c.Division = TimeDivision) :
    (rf (c.InfoFilename ++ c.TimeUnit.format) = some e →
        c.InitLogger tk lk cet sc rf se = BuildResult.panicked e) ∧
    (rf (c.InfoFilename ++ c.TimeUnit.format) = none → c.LevelSeparate = true →
        rf (c.ErrorFilename ++ c.TimeUnit.format) = some e →
        c.InitLogger tk lk cet sc rf se = BuildResult.panicked e) := by
  constructor
  · intro hinfo
    apply initLogger_panics_of_buildHooks_error
    simp [buildHooks, LogOptions.timeDivisionWriter, hout, hdiv, hinfo]
  · intro hinfo hsep herr
    apply initLogger_panics_of_buildHooks_error
    simp [buildHooks, LogOptions.timeDivisionWriter, hout, hdiv, hinfo, hsep, herr]

/-- C5 witness: a time-division config whose rotatelogs construction fails. -/
theorem C5_witness :
    c5cfg.InitLogger "t" "l" false false (fun _ => some "rotatelogs: boom") none =
      BuildResult.panicked "rotatelogs: boom" :=
  (C5_rotation_failure_panics c5cfg "t" "l" false false
      (fun _ => some "rotatelogs: boom") none "rotatelogs: boom"
      (by decide) (by decide)).1 rfl

/-- C10: a non-empty encoding other than json or console has no constructor
in the name map, and InitLogger panics (either from the nil encoder
constructor invoked during core construction, or earlier from a rotation
failure); only the empty string is defaulted to console before lookup. -/
theorem C10_unknown_encoding_panics (c : LogOptions) (tk lk : String)
    (cet sc : Bool) (rf : String → Option String) (se : Option String)
    (h1 : c.Encoding ≠ "") (h2 : c.Encoding ≠ "json") (h3 : c.Encoding ≠ "console") :
    _encoderNameToConstructor c.Encoding = none ∧
    ∃ msg, c.InitLogger tk lk cet sc rf se = BuildResult.panicked msg := by
  have hnone : _encoderNameToConstructor c.Encoding = none := by
    unfold _encoderNameToConstructor
    rw [if_neg h3, if_neg h2]
  refine ⟨hnone, ?_⟩
  unfold LogOptions.InitLogger
  simp only []
  rw [if_neg h1]
  rcases hb : buildHooks c rf with e | ⟨ih, wh⟩
  · exact ⟨e, rfl⟩
  · rw [hnone]
    exact ⟨_, rfl⟩

/-- C10 witness: encoding "xml" yields no constructor and a panic. -/
theorem C10_witness :
    _encoderNameToConstructor c10cfg.Encoding = none ∧
    ∃ msg, c10cfg.InitLogger "t" "l" false false (fun _ => none) none =
        BuildResult.panicked msg :=
  C10_unknown_encoding_panics c10cfg "t" "l" false false (fun _ => none) none
    (by decide) (by decide) (by decide)

/-- C3 counterexample: with a DSN configured and the sentry client
construction failing, InitLogger returns a logger normally instead of
aborting the process. -/
theorem C3_counterexample :
    c3cfg.SentryConfig.DSN ≠ "" ∧
    (c3cfg.InitLogger "t" "l" false false (fun _ => none)
        (some "sentry: boom")).isOk = true := by
  decide

/-- C3 as amended: a sentry client construction error is non-fatal — it
never changes whether InitLogger panics, and on success the error has been
printed to standard output and the sentry core is still attached. -/
theorem C3_amended_sentry_error_nonfatal (c : LogOptions) (tk lk : String)
    (cet sc : Bool) (rf : String → Option String) (e : String)
    (hdsn : c.SentryConfig.DSN ≠ "") :
    (∀ msg, c.InitLogger tk lk cet sc rf (some e) = BuildResult.panicked msg ↔
        c.InitLogger tk lk cet sc rf none = BuildResult.panicked msg) ∧
    (∀ m, c.InitLogger tk lk cet sc rf (some e) = BuildResult.ok m →
        m.printed = [(OutStream.stdout, e)] ∧ m.sentryCore.isSome = true) := by
  constructor
  · intro msg
    unfold LogOptions.InitLogger
    simp only []
    rcases hb : buildHooks c rf with e2 | ⟨ih, wh⟩
    · exact Iff.rfl
    · rcases hec : _encoderNameToConstructor
          (if c.Encoding = "" then _defaultEncoding else c.Encoding) with _ | ctor
      · exact Iff.rfl
      · simp
  · intro m hok
    obtain ⟨ctor, ih, wh, hec, hb, hwsi, hwsw, hcores, hsc, hp⟩ :=
      initLogger_ok_elim c tk lk cet sc rf (some e) m hok
    rw [hp, if_pos hdsn]
    refine ⟨rfl, ?_⟩
    rw [hsc, if_pos hdsn]
    rfl

/-- C3 amended witness: concrete DSN config with a failing client build. -/
theorem C3_amended_witness :
    c3cfg.SentryConfig.DSN ≠ "" ∧
    ∃ m, c3cfg.InitLogger "t" "l" false false (fun _ => none)
        (some "sentry: boom") = BuildResult.ok m ∧
      (m.printed = [(OutStream.stdout, "sentry: boom")] ∧
       m.sentryCore.isSome = true) :=
  ⟨by decide, _, rfl,
    (C3_amended_sentry_error_nonfatal c3cfg "t" "l" false false (fun _ => none)
        "sentry: boom" (by decide)).2 _ rfl⟩

/-- C6 counterexample: console disabled and no info path, yet InitLogger
panics because the configuration carries an unrecognized encoding, so the
claim quantified over every such configuration is false. -/
theorem C6_counterexample :
    c6cfg.CloseDisplay ≠ 0 ∧ c6cfg.InfoFilename = "" ∧
    (c6cfg.InitLogger "t" "l" false false (fun _ => none) none).isOk = false := by
  decide

/-- C6 as amended: with console disabled, no info path, and a recognized
(or empty) encoding, InitLogger succeeds — and when no error path is set
either, every core's writer-set is empty, so entries are silently
discarded. -/
theorem C6_amended_no_destination_still_ok (c : LogOptions) (tk lk : String)
    (cet sc : Bool) (rf : String → Option String) (se : Option String)
    (hcd : c.CloseDisplay ≠ 0) (hinfo : c.InfoFilename = "")
    (henc : c.Encoding = "" ∨ c.Encoding = "json" ∨ c.Encoding = "console") :
    ∃ m, c.InitLogger tk lk cet sc rf se = BuildResult.ok m ∧
      (c.ErrorFilename = "" → ∀ core ∈ m.cores, core.ws = []) := by
  have hio : c.isOutput = false := by
    simp [LogOptions.isOutput, hinfo]
  have hb : buildHooks c rf = Except.ok (none, none) := by
    unfold buildHooks
    rw [hio]
    simp
  obtain ⟨ctor, hctor⟩ : ∃ ctor,
      _encoderNameToConstructor
        (if c.Encoding = "" then _defaultEncoding else c.Encoding) = some ctor := by
    rcases henc with h | h | h <;> rw [h] <;> exact ⟨_, rfl⟩
  obtain ⟨m, hm⟩ : ∃ m, c.InitLogger tk lk cet sc rf se = BuildResult.ok m := by
    unfold LogOptions.InitLogger
    simp only []
    rw [hb]
    simp only []
    rw [hctor]
    exact ⟨_, rfl⟩
  refine ⟨m, hm, ?_⟩
  intro herr core hcore
  obtain ⟨ctor2, ih, wh, hec2, hb2, hwsi, hwsw, hcores, hsc, hp⟩ :=
    initLogger_ok_elim c tk lk cet sc rf se m hm
  have hws1 : m.wsInfo = [] := by
    rw [hwsi, if_neg hcd, hio]
    simp
  have hws2 : m.wsWarn = [] := by
    rw [hwsw, if_neg hcd]
    simp [herr]
  rw [hcores] at hcore
  by_cases hsep : c.LevelSeparate = true
  · rw [if_pos hsep] at hcore
    simp only [List.mem_cons, List.not_mem_nil, or_false] at hcore
    rcases hcore with rfl | rfl
    · exact hws1
    · exact hws2
  · rw [if_neg hsep] at hcore
    simp only [List.mem_cons, List.not_mem_nil, or_false] at hcore
    subst hcore
    exact hws1

/-- C6 amended witness: console disabled, nothing else set. -/
theorem C6_amended_witness :
    c6wcfg.CloseDisplay ≠ 0 ∧ c6wcfg.InfoFilename = "" ∧
    ∃ m, c6wcfg.InitLogger "t" "l" false false (fun _ => none) none =
        BuildResult.ok m ∧
      (c6wcfg.ErrorFilename = "" → ∀ core ∈ m.cores, core.ws = []) := by
  refine ⟨by decide, by decide, ?_⟩
  exact C6_amended_no_destination_still_ok c6wcfg "t" "l" false false
    (fun _ => none) none (by decide) (by decide) (Or.inl rfl)

/-- C7: in every successful build, the stdout sink is in the info
writer-set if and only if console display is enabled (CloseDisplay = 0),
and likewise for the warn writer-set. -/
theorem C7_stdout_iff_console_enabled (c : LogOptions) (tk lk : String)
    (cet sc : Bool) (rf : String → Option String) (se : Option String) (m : LogModel)
    (hok : c.InitLogger tk lk cet sc rf se = BuildResult.ok m) :
    ((Writer.stdout ∈ m.wsInfo) ↔ c.CloseDisplay = 0) ∧
    ((Writer.stdout ∈ m.wsWarn) ↔ c.CloseDisplay = 0) := by
  obtain ⟨ctor, ih, wh, hec, hb, hwsi, hwsw, hcores, hsc, hp⟩ :=
    initLogger_ok_elim c tk lk cet sc rf se m hok
  obtain ⟨hih, hwh⟩ := buildHooks_hooks_not_stdout c rf ih wh hb
  by_cases hcd : c.CloseDisplay = 0
  · rw [hwsi, hwsw, if_pos hcd]
    simp [hcd]
  · rw [hwsi, hwsw, if_neg hcd]
    simp only [List.nil_append]
    constructor
    · constructor
      · intro hm
        exfalso
        by_cases ho : c.isOutput = true
        · rw [if_pos ho] at hm
          simp only [List.mem_cons, List.not_mem_nil, or_false] at hm
          exact hih hm.symm
        · rw [if_neg ho] at hm
          simp at hm
      · intro h
        exact absurd h hcd
    · constructor
      · intro hm
        exfalso
        by_cases he : c.ErrorFilename ≠ ""
        · rw [if_pos he] at hm
          simp only [List.mem_cons, List.not_mem_nil, or_false] at hm
          exact hwh hm.symm
        · rw [if_neg he] at hm
          simp at hm
      · intro h
        exact absurd h hcd

/-- C7 witness: default config (console on) has stdout in both writer-sets;
applied through the claim theorem. -/
theorem C7_witness :
    ∃ m, c7cfg.InitLogger "t" "l" false false (fun _ => none) none =
        BuildResult.ok m ∧
      (((Writer.stdout ∈ m.wsInfo) ↔ c7cfg.CloseDisplay = 0) ∧
       ((Writer.stdout ∈ m.wsWarn) ↔ c7cfg.CloseDisplay = 0)) :=
  ⟨_, rfl,
    C7_stdout_iff_console_enabled c7cfg "t" "l" false false (fun _ => none) none _ rfl⟩

/-- C8: each formatted variant forwards `sprintf format args` as a single
unstructured message at the corresponding severity, attaching no fields. -/
theorem C8_formatted_variants (sprintf : String → List Arg → String)
    (format : String) (args : List Arg) :
    logInfof sprintf format args
        = { level := zapInfoLevel, msg := sprintf format args, fields := [] } ∧
    logWarnf sprintf format args
        = { level := zapWarnLevel, msg := sprintf format args, fields := [] } ∧
    logErrorf sprintf format args
        = { level := zapErrorLevel, msg := sprintf format args, fields := [] } ∧
    logDebugf sprintf format args
        = { level := zapDebugLevel, msg := sprintf format args, fields := [] } ∧
    logFatalf sprintf format args
        = { level := zapFatalLevel, msg := sprintf format args, fields := [] } :=
  ⟨rfl, rfl, rfl, rfl, rfl⟩

/-- C8 witness: concrete sprintf, format and arguments. -/
theorem C8_witness :
    logInfof (fun f _ => f ++ "!") "msg" []
        = { level := zapInfoLevel, msg := "msg" ++ "!", fields := [] } ∧
    logFatalf (fun f _ => f ++ "!") "msg" []
        = { level := zapFatalLevel, msg := "msg" ++ "!", fields := [] } :=
  ⟨(C8_formatted_variants (fun f _ => f ++ "!") "msg" []).1,
   (C8_formatted_variants (fun f _ => f ++ "!") "msg" []).2.2.2.2⟩

/-- C9 counterexample: on a YAML parse failure the loader reports the error
on standard output, not standard error (its stderr output is empty while it
did report something), contradicting the claim's "report the error to
standard error". -/
theorem C9_counterexample :
    (NewFromYaml (Except.ok "bad: [") (fun _ => (none, some "yaml: line 1"))).2.filter
        (fun p => match p.1 with | OutStream.stderr => true | OutStream.stdout => false)
      = [] ∧
    (NewFromYaml (Except.ok "bad: [") (fun _ => (none, some "yaml: line 1"))).2 ≠ [] ∧
    (NewFromYaml (Except.ok "bad: [") (fun _ => (none, some "yaml: line 1"))).1
      = BuildResult.ok none := by
  decide

/-- C9 as amended: on a malformed or unreadable configuration file the TOML
loader panics with the decode error, while the YAML and JSON loaders never
abort and report every error to standard output: on a readable but
malformed file they print the unmarshal error and return whatever config
value the unmarshal left behind (nil, or partially filled on a type error);
on an unreadable file they print the read error, continue with empty
contents, and return the config value unmarshalling those leaves. -/
theorem C9_amended_loader_behavior (e eread contents : String)
    (c : Option LogOptions) (um : String → Option LogOptions × Option String)
    (hum : um contents = (c, some e)) :
    NewFromToml (Except.error e) = (BuildResult.panicked e, []) ∧
    ((NewFromYaml (Except.ok contents) um).1 = BuildResult.ok c ∧
     (NewFromYaml (Except.ok contents) um).2 = [(OutStream.stdout, "error: " ++ e)]) ∧
    ((NewFromJson (Except.ok contents) um).1 = BuildResult.ok c ∧
     (NewFromJson (Except.ok contents) um).2 = [(OutStream.stdout, "error: " ++ e)]) ∧
    ((NewFromYaml (Except.error eread) um).1 = BuildResult.ok (um "").1 ∧
     (NewFromYaml (Except.error eread) um).2 ≠ [] ∧
     ∀ p ∈ (NewFromYaml (Except.error eread) um).2, p.1 = OutStream.stdout) ∧
    ((NewFromJson (Except.error eread) um).1 = BuildResult.ok (um "").1 ∧
     (NewFromJson (Except.error eread) um).2 ≠ [] ∧
     ∀ p ∈ (NewFromJson (Except.error eread) um).2, p.1 = OutStream.stdout) := by
  refine ⟨rfl, ?_, ?_, ?_, ?_⟩
  · constructor <;> simp [NewFromYaml, hum]
  · constructor <;> simp [NewFromJson, hum]
  · rcases hu : um "" with ⟨c0, umErr⟩
    rcases umErr with _ | e2 <;>
      refine ⟨?_, ?_, ?_⟩ <;> simp [NewFromYaml, hu]
  · rcases hu : um "" with ⟨c0, umErr⟩
    rcases umErr with _ | e2 <;>
      refine ⟨?_, ?_, ?_⟩ <;> simp [NewFromJson, hu]

/-- C9 amended witness: a type-error unmarshal leaving a partially filled
config (readable file), and an unreadable-file run of the same loader. -/
theorem C9_amended_witness :
    (fun (_ : String) =>
        ((some { Level := 3 } : Option LogOptions), some "yaml: type error")) "x"
      = ((some { Level := 3 } : Option LogOptions), some "yaml: type error") ∧
    NewFromToml (Except.error "yaml: type error")
      = (BuildResult.panicked "yaml: type error", []) ∧
    (NewFromYaml (Except.ok "x")
        (fun _ => (some { Level := 3 }, some "yaml: type error"))).1
      = BuildResult.ok (some { Level := 3 }) ∧
    (NewFromYaml (Except.error "open conf: no such file")
        (fun _ => (some { Level := 3 }, some "yaml: type error"))).1
      = BuildResult.ok (some { Level := 3 }) :=
  ⟨rfl,
   (C9_amended_loader_behavior "yaml: type error" "open conf: no such file" "x"
      (some { Level := 3 })
      (fun _ => (some { Level := 3 }, some "yaml: type error")) rfl).1,
   (C9_amended_loader_behavior "yaml: type error" "open conf: no such file" "x"
      (some { Level := 3 })
      (fun _ => (some { Level := 3 }, some "yaml: type error")) rfl).2.1.1,
   (C9_amended_loader_behavior "yaml: type error" "open conf: no such file" "x"
      (some { Level := 3 })
      (fun _ => (some { Level := 3 }, some "yaml: type error")) rfl).2.2.2.1.1⟩

end Logde
